import Mathlib

/-!
Shallow embedding of the connection lifecycle engine of the vsock server
(src/server/conn.go).  The file contains two variants of the `Conn` type:
a path-addressed variant (an enveloped request carries a string path used
as the dispatch key) and a code-addressed variant (the header's numeric
code is the dispatch key).  Both are embedded below, followed by theorems
about the claims of the specification.

Conventions of the embedding:
  * Go byte slices are `List Nat` (each element a byte value).
  * `uint16(n)` is `n % 2 ^ 16`.
  * External effects (the peek on the buffered reader, `socket.ReadSocket`,
    `socket.WriteSocket`, the protobuf unmarshal of a body) are inputs to
    the per-cycle step functions: each possible outcome of the effect is a
    constructor of a small inductive type, and the step function is the
    exact control flow of `Conn.serve` over those outcomes.
  * A Go function value `handler` may panic; a handler is therefore
    embedded as a function into an outcome type with a `panics`
    constructor, and propagation of the panic up to the deferred
    `recover()` in `Conn.serve` is modelled explicitly.
-/

namespace Vsock

/-- Reduction of a natural number modulo 2^16, the meaning of Go's
`uint16(...)` conversion applied to a nonnegative length. -/
def uint16 (n : Nat) : Nat := n % 65536

/-- Byte sequence of a Go string (`[]byte(s)`); the status and error
messages appearing in conn.go are ASCII, for which the UTF-8 bytes are the
code points themselves. -/
def strBytes (s : String) : List Nat := s.data.map Char.toNat

/-- Wire header (models.Header): magic, version, code and body length.
The struct models.Header is outside src/; its four fields are taken from
the spec's wire-frame description and from how conn.go reads and assigns
them (header.Code, header.Length, Magic, Version). -/
structure Header where
  magic : Nat
  version : Nat
  code : Nat
  length : Nat
  deriving Repr, DecidableEq

/-- Modelled from the spec: constant.DefaultMagic, the fixed protocol
identifier constant (its numeric value is not given in the spec and no
claim depends on it). -/
def DefaultMagic : Nat := 4660

/-- Modelled from the spec: constant.DefaultVersion, the fixed protocol
version constant (its numeric value is not given in the spec and no claim
depends on it). -/
def DefaultVersion : Nat := 1

/-- Modelled from the spec: errors.Status, a tagged error carrying a
numeric code and a message.  The message is kept as its byte sequence
(`[]byte(status.Error())` is what conn.go writes). -/
structure Status where
  code : Nat
  msg : List Nat
  deriving Repr, DecidableEq

/-- Modelled from the spec: errors.StatusInvalidRequest, the Status
returned for a malformed envelope (the numeric value of the code is not
fixed by the spec; it is some fixed nonzero reserved code). -/
def statusInvalidRequest : Status :=
  { code := 101, msg := strBytes "invalid request" }

/-- Modelled from the spec: errors.StatusInvalidPath, the Status returned
when no handler is registered for the request's path; the spec's example
gives its message "invalid path". -/
def statusInvalidPath : Status :=
  { code := 102, msg := strBytes "invalid path" }

/-- Envelope status code (protocols.StatusOK / protocols.StatusErr) of a
Response envelope in the path-addressed convention. -/
inductive RespCode where
  | ok
  | err
  deriving Repr, DecidableEq

/-- Response envelope (protocols.Response) of the path-addressed
convention: code, optional success bytes (`none` models a nil Go slice)
and an error string. -/
structure Response where
  code : RespCode
  rsp : Option (List Nat)
  err : String
  deriving Repr, DecidableEq

/-- Request envelope (protocols.Request) of the path-addressed convention:
a path selecting the handler and opaque request bytes. -/
structure Request where
  path : String
  req : List Nat
  deriving Repr, DecidableEq

/-- Outcome of invoking a path-addressed handler `handler(request.Req)`:
either a normal return of `([]byte, error)` (the bytes may be nil, the
error may be nil) or a panic escaping the handler. -/
inductive HandlerOutcome where
  | ret (bytes : Option (List Nat)) (err : Option String)
  | panics
  deriving Repr, DecidableEq

/-- Path-addressed handler shape: request bytes to a handler outcome. -/
def Handler : Type := List Nat → HandlerOutcome

/-- Embedding of the closure `wrap` inside Conn.handleServe (conn.go lines
39-59): a non-nil error yields `{Code: StatusErr, Rsp: nil, Err:
err.Error()}`, a nil error yields `{Code: StatusOK, Rsp: bytes, Err: ""}`.
The subsequent proto.Marshal of the envelope is kept symbolic (the
envelope itself stands for its marshalled bytes). -/
def wrap (bytes : Option (List Nat)) (err : Option String) : Response :=
  match err with
  | some e => { code := RespCode.err, rsp := none, err := e }
  | none => { code := RespCode.ok, rsp := bytes, err := "" }

/-- Result of Conn.handleServe (path-addressed): either the wrapped
response envelope (marshalled and returned with a nil status), a Status
error (malformed envelope or missing handler), or a panic escaping from
the handler call. -/
inductive HandleResult where
  | success (env : Response)
  | status (st : Status)
  | panicked
  deriving Repr, DecidableEq

/-- Embedding of Conn.handleServe (conn.go lines 38-75, path-addressed).
The proto.Unmarshal of the body is an input: `decoded = none` is an
unmarshal error (returns StatusInvalidRequest), otherwise the handler for
`request.Path` is looked up (`none` returns StatusInvalidPath) and
invoked; a panic in the handler propagates out. -/
def handleServe (getHandler : String → Option Handler)
    (decoded : Option Request) : HandleResult :=
  match decoded with
  | none => HandleResult.status statusInvalidRequest
  | some request =>
    match getHandler request.path with
    | none => HandleResult.status statusInvalidPath
    | some handler =>
      match handler request.req with
      | HandlerOutcome.panics => HandleResult.panicked
      | HandlerOutcome.ret bytes err => HandleResult.success (wrap bytes err)

/-- Embedding of Conn.responseSuccess (conn.go lines 186-190): the request
header is echoed with `Code = 0` and `Length = uint16(len(rspBytes))`, and
the full `rspBytes` is passed to socket.WriteSocket as the body. -/
def responseSuccess (header : Header) (rspBytes : List Nat) :
    Header × List Nat :=
  ({ header with code := 0, length := uint16 rspBytes.length }, rspBytes)

/-- Embedding of Conn.responseStatus (conn.go lines 192-203): a fresh
header with the default magic and version, `Code = status.Code()` and
`Length = uint16(len(body))` where `body = []byte(status.Error())`; the
full body is passed to socket.WriteSocket. -/
def responseStatus (status : Status) : Header × List Nat :=
  ({ magic := DefaultMagic, version := DefaultVersion,
     code := status.code, length := uint16 status.msg.length }, status.msg)

/-- Outcome of one `bufReader.Peek` call inside the idle wait: success,
`io.EOF`, or any other error carrying its message (a read-deadline timeout
surfaces here as an error whose message is "i/o timeout"; conn.go does not
distinguish it from other non-EOF errors). -/
inductive PeekResult where
  | ok
  | eof
  | err (msg : String)
  deriving Repr, DecidableEq

/-- Outcome of the path-addressed `waitNext` loop: proceed to Active-Read,
close the connection with an error, or still blocked waiting for a further
peek outcome. -/
inductive WaitOutcome where
  | proceed
  | close (msg : String)
  | pending
  deriving Repr, DecidableEq

/-- Embedding of the `waitNext` closure of the path-addressed Conn.serve
(conn.go lines 107-128), driven by the successive outcomes of the peek:
success returns nil (proceed), `io.EOF` re-enters the loop, and any other
error (a deadline timeout included) returns an error that closes the
connection.  An exhausted outcome list means the peek is still blocked. -/
def waitNextPath : List PeekResult → WaitOutcome
  | [] => WaitOutcome.pending
  | PeekResult.ok :: _ => WaitOutcome.proceed
  | PeekResult.eof :: rest => waitNextPath rest
  | PeekResult.err m :: _ =>
    WaitOutcome.close ("serve wait peek err : " ++ m)

/-- Read deadline armed by one iteration of the path-addressed `waitNext`
(conn.go lines 109-115): `now + idleTimeout` when the idle timeout is
nonzero, and no deadline (`SetReadDeadline(time.Time{})`) when it is
zero. -/
def pathWaitDeadline (idleTimeout : Nat) : Option Nat :=
  if idleTimeout != 0 then some idleTimeout else none

/-- Outcome of `socket.ReadSocket` (conn.go line 143) as seen by the path-
addressed serve loop: a message (the decoded header, with the body given by
its protobuf-unmarshal outcome), a non-broken error (the loop continues),
or a broken error (the connection closes).  socket.ReadSocket itself is
outside src/; only its `(header, body, broken, err)` result shape, as
consumed by Conn.serve, is embedded. -/
inductive ReadResult where
  | ok (header : Header) (decoded : Option Request)
  | recoverable
  | broken
  deriving Repr, DecidableEq

/-- Outcome of `socket.WriteSocket` as seen through the `(broken, err)`
pair returned by responseStatus / responseSuccess: success (nil error),
an error with `broken = false`, or an error with `broken = true`. -/
inductive WriteResult where
  | ok
  | recoverable
  | broken
  deriving Repr, DecidableEq

/-- Frame write performed by one path-addressed serve cycle: either
`responseStatus st` (header code = status code, body = the status message
bytes) or `responseSuccess` applied to the marshalled envelope `env` (the
envelope stands for its marshalled bytes; `reqHeader` is the echoed
request header). -/
inductive WriteAction where
  | statusFrame (st : Status)
  | successFrame (reqHeader : Header) (env : Response)
  deriving Repr, DecidableEq

/-- Configuration of the path-addressed connection drawn from its Server:
the handler registry lookup, the keep-alive policy and the idle
timeout. -/
structure PathServerCfg where
  getHandler : String → Option Handler
  keepAlive : Bool
  idleTimeout : Nat

/-- Result of one iteration of the path-addressed `for` loop in Conn.serve
before the deferred recover is taken into account: the loop returns
(closing the connection), continues to the next iteration, is still
blocked in waitNext, or a panic propagates out of the loop body. -/
inductive LoopResult where
  | close (reason : String) (wrote : Option WriteAction)
  | again (wrote : Option WriteAction)
  | pendingWait
  | panicked
  deriving Repr, DecidableEq

/-- One iteration of the `for` loop of the path-addressed Conn.serve
(conn.go lines 130-183): waitNext, then socket.ReadSocket (broken errors
close, other errors continue), then handleServe; a Status is written via
responseStatus and a success via responseSuccess, a write error closes
only when broken; after a write the loop closes when keep-alive is
disabled and otherwise re-enters waitNext.  A handler panic propagates out
of the loop body. -/
def serveLoopBody (cfg : PathServerCfg) (peeks : List PeekResult)
    (rd : ReadResult) (wr : WriteResult) : LoopResult :=
  match waitNextPath peeks with
  | WaitOutcome.pending => LoopResult.pendingWait
  | WaitOutcome.close msg => LoopResult.close msg none
  | WaitOutcome.proceed =>
    match rd with
    | ReadResult.broken => LoopResult.close "read broken" none
    | ReadResult.recoverable => LoopResult.again none
    | ReadResult.ok header decoded =>
      match handleServe cfg.getHandler decoded with
      | HandleResult.panicked => LoopResult.panicked
      | HandleResult.status st =>
        match wr with
        | WriteResult.broken =>
          LoopResult.close "write broken" (some (WriteAction.statusFrame st))
        | _ =>
          if cfg.keepAlive then
            LoopResult.again (some (WriteAction.statusFrame st))
          else
            LoopResult.close "ErrNoKeepAlive"
              (some (WriteAction.statusFrame st))
      | HandleResult.success env =>
        match wr with
        | WriteResult.broken =>
          LoopResult.close "write broken"
            (some (WriteAction.successFrame header env))
        | _ =>
          if cfg.keepAlive then
            LoopResult.again (some (WriteAction.successFrame header env))
          else
            LoopResult.close "ErrNoKeepAlive"
              (some (WriteAction.successFrame header env))

/-- Observable outcome of one path-addressed serve cycle after the
deferred handlers of Conn.serve: the connection closes (deferred
`c.Close(closeErr)`), the loop continues, or waitNext is still blocked. -/
inductive CycleStep where
  | close (reason : String) (wrote : Option WriteAction)
  | again (wrote : Option WriteAction)
  | pendingWait
  deriving Repr, DecidableEq

/-- One path-addressed serve cycle including the deferred recover of
Conn.serve (conn.go lines 88-95): a panic escaping the loop body is
recovered, the stack is logged, and the deferred Close runs with the
default close error — the connection closes with nothing written for that
cycle; every other loop result passes through unchanged. -/
def serveCycle (cfg : PathServerCfg) (peeks : List PeekResult)
    (rd : ReadResult) (wr : WriteResult) : CycleStep :=
  match serveLoopBody cfg peeks rd wr with
  | LoopResult.panicked => CycleStep.close "panic recovered and logged" none
  | LoopResult.close msg w => CycleStep.close msg w
  | LoopResult.again w => CycleStep.again w
  | LoopResult.pendingWait => CycleStep.pendingWait

/-- External outcomes consumed by one path-addressed serve cycle: the peek
outcomes of its waitNext, its read outcome and its write outcome. -/
structure CycleInput where
  peeks : List PeekResult
  rd : ReadResult
  wr : WriteResult

/-- Trace of the path-addressed serve loop over a list of per-cycle
external outcomes: cycles are taken until one closes the connection (or
blocks in waitNext); inputs after a close are never consumed. -/
def serveRun (cfg : PathServerCfg) : List CycleInput → List CycleStep
  | [] => []
  | i :: rest =>
    match serveCycle cfg i.peeks i.rd i.wr with
    | CycleStep.again w => CycleStep.again w :: serveRun cfg rest
    | s => [s]

/-- Outcome of invoking a code-addressed handler `handler(code, body)`:
raw response bytes, or a panic escaping the handler. -/
inductive CodeHandlerOutcome where
  | ret (bytes : List Nat)
  | panics
  deriving Repr, DecidableEq

/-- Code-addressed handler shape: numeric code and body bytes to an
outcome. -/
def CodeHandler : Type := Nat → List Nat → CodeHandlerOutcome

/-- Modelled from the spec: client.CodeInvalidAction, the reserved nonzero
header-level status code written when no handler is registered for the
header's code (its numeric value is not given in the spec and no claim
depends on it). -/
def CodeInvalidAction : Nat := 201

/-- Result of Conn.handleServe of the code-addressed variant (conn.go
lines 245-253): `(nil, false)` when no handler is registered for
`header.Code`, otherwise the handler's raw bytes with `true`; a panic in
the handler propagates out. -/
inductive CodeHandleResult where
  | noHandler
  | handled (rspBytes : List Nat)
  | panicked
  deriving Repr, DecidableEq

/-- Embedding of the code-addressed Conn.handleServe: handler lookup keyed
by the header's code, invocation with `(header.Code, body)`. -/
def codeHandleServe (getHandler : Nat → Option CodeHandler)
    (header : Header) (body : List Nat) : CodeHandleResult :=
  match getHandler header.code with
  | none => CodeHandleResult.noHandler
  | some handler =>
    match handler header.code body with
    | CodeHandlerOutcome.panics => CodeHandleResult.panicked
    | CodeHandlerOutcome.ret bytes => CodeHandleResult.handled bytes

/-- Embedding of Conn.responseError (conn.go lines 351-364): a fresh
header with the default magic and version, `Code = code` and `Length =
uint16(len(body))` where `body = []byte(msg)`; no envelope is involved. -/
def responseError (code : Nat) (msg : String) : Header × List Nat :=
  ({ magic := DefaultMagic, version := DefaultVersion,
     code := code, length := uint16 (strBytes msg).length }, strBytes msg)

/-- Embedding of the success write of the code-addressed Conn.serve
(conn.go lines 334-337): the request header is echoed with `Code = 0` and
`Length = uint16(len(rspBytes))`, and the full rspBytes is the body. -/
def codeResponseSuccess (header : Header) (rspBytes : List Nat) :
    Header × List Nat :=
  ({ header with code := 0, length := uint16 rspBytes.length }, rspBytes)

/-- Embedding of the `waitNext` closure of the code-addressed Conn.serve
(conn.go lines 282-296): only when the idle timeout is nonzero does it arm
the deadline and peek — a successful peek returns true and any peek error
returns false; when the idle timeout is zero it returns false immediately
(and the caller then closes the connection). -/
def waitNextCode (idleTimeout : Nat) (peek : PeekResult) : Bool :=
  if idleTimeout != 0 then
    match peek with
    | PeekResult.ok => true
    | _ => false
  else false

/-- Configuration of the code-addressed connection drawn from its Server:
the handler registry lookup keyed by numeric code, the keep-alive policy
and the idle timeout. -/
structure CodeServerCfg where
  getHandler : Nat → Option CodeHandler
  keepAlive : Bool
  idleTimeout : Nat

/-- Outcome of `socket.ReadSocketTest` as consumed by the code-addressed
serve loop: a header and body, or any error (which makes the loop
return). -/
inductive CodeReadResult where
  | ok (header : Header) (body : List Nat)
  | err
  deriving Repr, DecidableEq

/-- Outcome of `socket.WriteSocket` as consumed by the code-addressed
serve loop: nil error or an error (which makes the loop return). -/
inductive CodeWriteResult where
  | ok
  | err
  deriving Repr, DecidableEq

/-- Frame written by one code-addressed serve cycle: the responseError
frame or the echoed-header success frame, each with its body bytes. -/
inductive CodeWrite where
  | errorFrame (header : Header) (body : List Nat)
  | successFrame (header : Header) (body : List Nat)
  deriving Repr, DecidableEq

/-- Result of one iteration of the code-addressed `for` loop in Conn.serve
before the deferred recover: return (close), continue, or a panic
propagating out of the loop body. -/
inductive CodeLoopResult where
  | close (wrote : Option CodeWrite)
  | again (wrote : Option CodeWrite)
  | panicked
  deriving Repr, DecidableEq

/-- One iteration of the `for` loop of the code-addressed Conn.serve
(conn.go lines 298-348): read (any error closes), handleServe; a missing
handler writes the CodeInvalidAction responseError and then — without
consulting the keep-alive policy — continues iff waitNext succeeds; a
handled request writes the echoed success frame, then closes when
keep-alive is disabled, and otherwise continues iff waitNext succeeds. -/
def codeServeLoopBody (cfg : CodeServerCfg) (rd : CodeReadResult)
    (wr : CodeWriteResult) (peek : PeekResult) : CodeLoopResult :=
  match rd with
  | CodeReadResult.err => CodeLoopResult.close none
  | CodeReadResult.ok header body =>
    match codeHandleServe cfg.getHandler header body with
    | CodeHandleResult.panicked => CodeLoopResult.panicked
    | CodeHandleResult.noHandler =>
      let w := responseError CodeInvalidAction "invalid action"
      let wrote := some (CodeWrite.errorFrame w.1 w.2)
      match wr with
      | CodeWriteResult.err => CodeLoopResult.close wrote
      | CodeWriteResult.ok =>
        if waitNextCode cfg.idleTimeout peek then CodeLoopResult.again wrote
        else CodeLoopResult.close wrote
    | CodeHandleResult.handled rspBytes =>
      let w := codeResponseSuccess header rspBytes
      let wrote := some (CodeWrite.successFrame w.1 w.2)
      match wr with
      | CodeWriteResult.err => CodeLoopResult.close wrote
      | CodeWriteResult.ok =>
        if !cfg.keepAlive then CodeLoopResult.close wrote
        else if waitNextCode cfg.idleTimeout peek then
          CodeLoopResult.again wrote
        else CodeLoopResult.close wrote

/-- Observable outcome of one code-addressed serve cycle after the
deferred handlers of Conn.serve. -/
inductive CodeCycleStep where
  | close (wrote : Option CodeWrite)
  | again (wrote : Option CodeWrite)
  deriving Repr, DecidableEq

/-- One code-addressed serve cycle including the deferred recover of the
code-addressed Conn.serve (conn.go lines 261-268): a panic escaping the
loop body is recovered and logged, and the deferred Close runs — the
connection closes with nothing written for that cycle. -/
def codeServeCycle (cfg : CodeServerCfg) (rd : CodeReadResult)
    (wr : CodeWriteResult) (peek : PeekResult) : CodeCycleStep :=
  match codeServeLoopBody cfg rd wr peek with
  | CodeLoopResult.panicked => CodeCycleStep.close none
  | CodeLoopResult.close w => CodeCycleStep.close w
  | CodeLoopResult.again w => CodeCycleStep.again w

/-- Pool of released buffered readers and writers, each identified by a
token.  Modelled from the spec: getBufReader / putBufReader /
getBufWriter / putBufWriter are outside src/; the spec's Buffer Pool
releases a buffer by making it available for reuse, so the pool state is
the multiset of released buffers, kept as lists. -/
structure PoolState where
  readers : List Nat
  writers : List Nat
  deriving Repr, DecidableEq

/-- Modelled from the spec: putBufReader releases a buffered reader back
to the Buffer Pool, making it available for reuse. -/
def putBufReader (pool : PoolState) (reader : Nat) : PoolState :=
  { pool with readers := reader :: pool.readers }

/-- Modelled from the spec: putBufWriter releases a buffered writer back
to the Buffer Pool, making it available for reuse. -/
def putBufWriter (pool : PoolState) (writer : Nat) : PoolState :=
  { pool with writers := writer :: pool.writers }

/-- Connection state relevant to Close: whether the underlying stream has
been closed, and the identities of the buffered reader and writer on loan
from the pool (Conn keeps both pointers; Close does not clear them). -/
structure ConnState where
  rwcClosed : Bool
  bufReader : Nat
  bufWriter : Nat
  deriving Repr, DecidableEq

/-- Embedding of Conn.Close (conn.go lines 205-211 and 366-371, identical
in both variants up to logging): closes the underlying stream, then
unconditionally releases the connection's buffered reader and writer back
to the pool — there is no guard against a repeated call. -/
def ConnClose (c : ConnState) (pool : PoolState) : ConnState × PoolState :=
  ({ c with rwcClosed := true },
   putBufWriter (putBufReader pool c.bufReader) c.bufWriter)

/-! Concrete fixtures used by the closed theorems below. -/

/-- Fixture header with the default magic and version and code 0. -/
def hdrEx : Header :=
  { magic := DefaultMagic, version := DefaultVersion, code := 0, length := 0 }

/-- Fixture header whose code is 7 (a code-addressed dispatch key). -/
def hdr7 : Header :=
  { magic := DefaultMagic, version := DefaultVersion, code := 7, length := 0 }

/-- Fixture path-addressed handler echoing its request bytes, nil error. -/
def echoHandler : Handler := fun b => HandlerOutcome.ret (some b) none

/-- Fixture path-addressed handler that panics. -/
def panicHandler : Handler := fun _ => HandlerOutcome.panics

/-- Fixture registry with one handler at "/echo". -/
def regEx : String → Option Handler :=
  fun p => if p = "/echo" then some echoHandler else none

/-- Fixture registry with one panicking handler at "/boom". -/
def regPanic : String → Option Handler :=
  fun p => if p = "/boom" then some panicHandler else none

/-- Fixture code-addressed handler echoing the body bytes. -/
def codeEchoHandler : CodeHandler := fun _ b => CodeHandlerOutcome.ret b

/-- Fixture code-addressed registry with one handler at code 7. -/
def regCode : Nat → Option CodeHandler :=
  fun c => if c = 7 then some codeEchoHandler else none

/-- Fixture code-addressed registry with no handlers. -/
def emptyCodeReg : Nat → Option CodeHandler := fun _ => none

/-- Path-addressed server with keep-alive enabled and the echo registry. -/
def pathCfgEcho : PathServerCfg :=
  { getHandler := regEx, keepAlive := true, idleTimeout := 5 }

/-- Path-addressed server with keep-alive enabled and a panicking
handler. -/
def pathCfgPanic : PathServerCfg :=
  { getHandler := regPanic, keepAlive := true, idleTimeout := 5 }

/-- Path-addressed server with keep-alive disabled. -/
def pathCfgNoKA : PathServerCfg :=
  { getHandler := regEx, keepAlive := false, idleTimeout := 5 }

/-- Code-addressed server with keep-alive enabled. -/
def codeCfgKA : CodeServerCfg :=
  { getHandler := regCode, keepAlive := true, idleTimeout := 5 }

/-- Code-addressed server with keep-alive enabled but idle timeout zero. -/
def codeCfgZeroIdle : CodeServerCfg :=
  { getHandler := regCode, keepAlive := true, idleTimeout := 0 }

/-- Code-addressed server with no handlers and keep-alive disabled. -/
def codeCfgNoHandler : CodeServerCfg :=
  { getHandler := emptyCodeReg, keepAlive := false, idleTimeout := 5 }

/-- Fixture connection holding reader 1 and writer 2 on loan. -/
def connEx : ConnState := { rwcClosed := false, bufReader := 1, bufWriter := 2 }

/-- Empty buffer pool. -/
def poolEmpty : PoolState := { readers := [], writers := [] }

/-- Body of 65536 zero bytes, one more than the 16-bit length field can
represent. -/
def bigBody : List Nat := List.replicate 65536 0

/-- Status whose message is 65536 bytes long. -/
def bigStatus : Status := { code := 7, msg := bigBody }

/-! Theorems about the claims. -/

/-- C1 (amended): in the path-addressed convention, a request whose
handler panics during dispatch makes the panic escape the serve loop body;
it is caught by the deferred recover of Conn.serve — so it never
propagates beyond the connection's serve — the stack is logged, and the
connection closes with nothing written for that cycle (no internal-error
response is produced and the cycle does not proceed to Active-Write). -/
theorem panic_caught_connection_closes (cfg : PathServerCfg)
    (peeks : List PeekResult) (header : Header) (r : Request) (hd : Handler)
    (wr : WriteResult)
    (hpeek : waitNextPath peeks = WaitOutcome.proceed)
    (hreg : cfg.getHandler r.path = some hd)
    (hpanic : hd r.req = HandlerOutcome.panics) :
    serveLoopBody cfg peeks (ReadResult.ok header (some r)) wr
      = LoopResult.panicked ∧
    serveCycle cfg peeks (ReadResult.ok header (some r)) wr
      = CycleStep.close "panic recovered and logged" none := by
  have hh : handleServe cfg.getHandler (some r) = HandleResult.panicked := by
    simp [handleServe, hreg, hpanic]
  constructor
  · simp [serveLoopBody, hpeek, hh]
  · simp [serveCycle, serveLoopBody, hpeek, hh]

/-- Witness for panic_caught_connection_closes at the panicking fixture. -/
theorem panic_caught_connection_closes_witness :
    serveLoopBody pathCfgPanic [PeekResult.ok]
        (ReadResult.ok hdrEx (some { path := "/boom", req := [] }))
        WriteResult.ok
      = LoopResult.panicked ∧
    serveCycle pathCfgPanic [PeekResult.ok]
        (ReadResult.ok hdrEx (some { path := "/boom", req := [] }))
        WriteResult.ok
      = CycleStep.close "panic recovered and logged" none :=
  panic_caught_connection_closes pathCfgPanic [PeekResult.ok] hdrEx
    { path := "/boom", req := [] } panicHandler WriteResult.ok rfl rfl rfl

/-- C1 counterexample: at a concrete panicking request the cycle closes
the connection with nothing written; it does not transition to
Active-Write with an error envelope, refuting the claim that the panic is
converted into an internal-error status response and the connection does
not close for that cycle. -/
theorem panic_no_error_response_cx :
    serveCycle pathCfgPanic [PeekResult.ok]
        (ReadResult.ok hdrEx (some { path := "/boom", req := [] }))
        WriteResult.ok
      = CycleStep.close "panic recovered and logged" none ∧
    ¬ ∃ w, serveCycle pathCfgPanic [PeekResult.ok]
        (ReadResult.ok hdrEx (some { path := "/boom", req := [] }))
        WriteResult.ok
      = CycleStep.again w := by
  have h0 : serveCycle pathCfgPanic [PeekResult.ok]
      (ReadResult.ok hdrEx (some { path := "/boom", req := [] }))
      WriteResult.ok
      = CycleStep.close "panic recovered and logged" none := by decide
  refine ⟨h0, ?_⟩
  rintro ⟨w, hw⟩
  rw [h0] at hw
  simp at hw

/-- C2 (amended): in the path-addressed convention with keep-alive
enabled, a request whose path has no registered handler is answered by the
responseStatus frame of StatusInvalidPath — a header whose code is the
status's nonzero code and whose body is the status message bytes, not a
Response envelope — and a malformed envelope likewise by the
StatusInvalidRequest frame; the connection is not closed, and a subsequent
valid request on the same connection still succeeds. -/
theorem invalid_path_status_then_next_ok (cfg : PathServerCfg)
    (p q : String) (hq : Handler) (b1 b2 : List Nat) (h1 h2 h3 : Header)
    (out : Option (List Nat))
    (hka : cfg.keepAlive = true)
    (hmiss : cfg.getHandler p = none)
    (hhit : cfg.getHandler q = some hq)
    (hret : hq b2 = HandlerOutcome.ret out none) :
    serveRun cfg
      [{ peeks := [PeekResult.ok],
         rd := ReadResult.ok h1 (some { path := p, req := b1 }),
         wr := WriteResult.ok },
       { peeks := [PeekResult.ok],
         rd := ReadResult.ok h2 (some { path := q, req := b2 }),
         wr := WriteResult.ok }]
      = [CycleStep.again (some (WriteAction.statusFrame statusInvalidPath)),
         CycleStep.again (some (WriteAction.successFrame h2 (wrap out none)))]
      ∧
    serveCycle cfg [PeekResult.ok] (ReadResult.ok h3 none) WriteResult.ok
      = CycleStep.again (some (WriteAction.statusFrame statusInvalidRequest))
      ∧
    (responseStatus statusInvalidPath).1.code = statusInvalidPath.code ∧
    (responseStatus statusInvalidPath).2 = statusInvalidPath.msg ∧
    statusInvalidPath.code ≠ 0 := by
  have hh1 : handleServe cfg.getHandler (some { path := p, req := b1 })
      = HandleResult.status statusInvalidPath := by
    simp [handleServe, hmiss]
  have hh2 : handleServe cfg.getHandler (some { path := q, req := b2 })
      = HandleResult.success (wrap out none) := by
    simp [handleServe, hhit, hret]
  refine ⟨?_, ?_, rfl, rfl, by decide⟩
  · simp [serveRun, serveCycle, serveLoopBody, waitNextPath, hh1, hh2, hka]
  · simp [serveCycle, serveLoopBody, waitNextPath, handleServe, hka]

/-- Witness for invalid_path_status_then_next_ok at the echo fixture. -/
theorem invalid_path_status_then_next_ok_witness :
    serveRun pathCfgEcho
      [{ peeks := [PeekResult.ok],
         rd := ReadResult.ok hdrEx (some { path := "/missing", req := [] }),
         wr := WriteResult.ok },
       { peeks := [PeekResult.ok],
         rd := ReadResult.ok hdrEx (some { path := "/echo", req := [1, 2] }),
         wr := WriteResult.ok }]
      = [CycleStep.again (some (WriteAction.statusFrame statusInvalidPath)),
         CycleStep.again
           (some (WriteAction.successFrame hdrEx (wrap (some [1, 2]) none)))]
      ∧
    serveCycle pathCfgEcho [PeekResult.ok] (ReadResult.ok hdrEx none)
        WriteResult.ok
      = CycleStep.again (some (WriteAction.statusFrame statusInvalidRequest))
      ∧
    (responseStatus statusInvalidPath).1.code = statusInvalidPath.code ∧
    (responseStatus statusInvalidPath).2 = statusInvalidPath.msg ∧
    statusInvalidPath.code ≠ 0 :=
  invalid_path_status_then_next_ok pathCfgEcho "/missing" "/echo" echoHandler
    [] [1, 2] hdrEx hdrEx hdrEx (some [1, 2]) rfl rfl rfl rfl

/-- C2 counterexample: at a concrete request for an unregistered path the
cycle writes the StatusInvalidPath responseStatus frame; no Response
envelope is written, refuting the claim that a Response envelope with
code=ERR is written back for a missing handler. -/
theorem invalid_path_no_err_envelope_cx :
    serveCycle pathCfgEcho [PeekResult.ok]
        (ReadResult.ok hdrEx (some { path := "/missing", req := [] }))
        WriteResult.ok
      = CycleStep.again (some (WriteAction.statusFrame statusInvalidPath)) ∧
    ¬ ∃ h env, serveCycle pathCfgEcho [PeekResult.ok]
        (ReadResult.ok hdrEx (some { path := "/missing", req := [] }))
        WriteResult.ok
      = CycleStep.again (some (WriteAction.successFrame h env)) := by
  have h0 : serveCycle pathCfgEcho [PeekResult.ok]
      (ReadResult.ok hdrEx (some { path := "/missing", req := [] }))
      WriteResult.ok
      = CycleStep.again (some (WriteAction.statusFrame statusInvalidPath)) := by
    decide
  refine ⟨h0, ?_⟩
  rintro ⟨h, env, hw⟩
  rw [h0] at hw
  simp at hw

/-- C5 (amended): in the path-addressed idle wait, a peek failing with
io.EOF re-enters the loop (the deadline is re-armed and the wait
continues), while any other peek error — a read-deadline timeout included
— returns an error that closes the connection. -/
theorem idle_peek_eof_retries_other_errors_close (rest : List PeekResult)
    (msg : String) :
    waitNextPath (PeekResult.eof :: rest) = waitNextPath rest ∧
    waitNextPath (PeekResult.err msg :: rest)
      = WaitOutcome.close ("serve wait peek err : " ++ msg) := ⟨rfl, rfl⟩

/-- C5 counterexample: a read-deadline timeout surfacing from the idle
peek (error message "i/o timeout") closes the connection; the loop neither
keeps waiting nor proceeds, refuting the claim that a timeout here re-arms
the deadline and waits again. -/
theorem idle_peek_timeout_closes_cx :
    waitNextPath [PeekResult.err "i/o timeout"]
      = WaitOutcome.close "serve wait peek err : i/o timeout" ∧
    waitNextPath [PeekResult.err "i/o timeout"] ≠ WaitOutcome.pending ∧
    waitNextPath [PeekResult.err "i/o timeout"] ≠ WaitOutcome.proceed := by
  decide

/-- C9 (confirmed): the wrap closure of the path-addressed handleServe is
a tagged result: a nil handler error yields Code=OK, Rsp equal to the
handler's bytes and an empty Err; a non-nil error yields Code=ERR, Err
equal to the error's message and a nil Rsp; never are both fields
meaningful at once. -/
theorem wrap_tagged_result (bytes : Option (List Nat)) (err : Option String) :
    (err = none →
      wrap bytes err = { code := RespCode.ok, rsp := bytes, err := "" }) ∧
    (∀ e, err = some e →
      wrap bytes err = { code := RespCode.err, rsp := none, err := e }) ∧
    ((wrap bytes err).rsp = none ∨ (wrap bytes err).err = "") := by
  refine ⟨?_, ?_, ?_⟩
  · intro h; subst h; rfl
  · intro e h; subst h; rfl
  · cases err with
    | none => exact Or.inr rfl
    | some e => exact Or.inl rfl

/-- Witness for wrap_tagged_result on a success and on a failure. -/
theorem wrap_tagged_result_witness :
    wrap (some [104, 105]) none
      = { code := RespCode.ok, rsp := some [104, 105], err := "" } ∧
    wrap (some [104, 105]) (some "boom")
      = { code := RespCode.err, rsp := none, err := "boom" } :=
  ⟨(wrap_tagged_result (some [104, 105]) none).1 rfl,
   (wrap_tagged_result (some [104, 105]) (some "boom")).2.1 "boom" rfl⟩

/-- C3 (amended): in the path-addressed convention, a zero idle timeout
arms no read deadline and the idle wait blocks indefinitely (pending on no
peek outcome, and still pending after any number of io.EOF retries); in
the code-addressed convention, however, waitNext returns false whenever
the idle timeout is zero, and its caller then closes the connection. -/
theorem zero_idle_timeout_behaviour :
    pathWaitDeadline 0 = none ∧
    waitNextPath [] = WaitOutcome.pending ∧
    (∀ n : Nat, waitNextPath (List.replicate n PeekResult.eof)
      = WaitOutcome.pending) ∧
    (∀ peek : PeekResult, waitNextCode 0 peek = false) := by
  refine ⟨rfl, rfl, ?_, ?_⟩
  · intro n
    induction n with
    | zero => rfl
    | succ k ih => simpa [List.replicate, waitNextPath] using ih
  · intro peek
    rfl

/-- C3 counterexample: in the code-addressed convention with the idle
timeout configured to zero, waitNext refuses even a successful peek, and a
connection that has just served a request closes instead of blocking for
the next message — refuting the claim that a zero idle timeout means
"block indefinitely" in both dispatch conventions. -/
theorem zero_idle_timeout_code_closes_cx :
    waitNextCode 0 PeekResult.ok = false ∧
    codeServeCycle codeCfgZeroIdle (CodeReadResult.ok hdr7 [2])
        CodeWriteResult.ok PeekResult.ok
      = CodeCycleStep.close
          (some (CodeWrite.successFrame (codeResponseSuccess hdr7 [2]).1 [2]))
      := by decide

/-- C4 (amended): Conn.Close never panics (it is a total function of the
connection and pool states and always marks the stream closed), but it is
not idempotent with respect to the pool: every call releases the
connection's buffered reader and writer again, so a second Close releases
the same pair a second time. -/
theorem close_releases_again (c : ConnState) (p : PoolState) :
    (ConnClose c p).1.rwcClosed = true ∧
    (ConnClose (ConnClose c p).1 (ConnClose c p).2).2.readers
      = c.bufReader :: c.bufReader :: p.readers ∧
    (ConnClose (ConnClose c p).1 (ConnClose c p).2).2.writers
      = c.bufWriter :: c.bufWriter :: p.writers := by
  refine ⟨rfl, ?_, ?_⟩ <;> simp [ConnClose, putBufReader, putBufWriter]

/-- C4 counterexample: closing the fixture connection twice over the empty
pool leaves its reader in the pool twice — the pooled buffers are released
a second time, refuting idempotency of Conn.Close. -/
theorem close_double_release_cx :
    (ConnClose (ConnClose connEx poolEmpty).1
        (ConnClose connEx poolEmpty).2).2.readers.count 1 = 2 ∧
    (ConnClose (ConnClose connEx poolEmpty).1
        (ConnClose connEx poolEmpty).2).2.writers.count 2 = 2 ∧
    (ConnClose (ConnClose connEx poolEmpty).1
        (ConnClose connEx poolEmpty).2).2.readers.count 1 ≠ 1 := by decide

/-- C6 (confirmed): after a successful response write, a connection whose
server disables keep-alive closes — in the path-addressed convention the
run serves exactly one request/response pair even with further inputs
pending, and the code-addressed cycle closes after its success write — and
with keep-alive enabled the connection returns to Idle-Wait (the
path-addressed run continues with the next cycle; the code-addressed cycle
continues when its idle wait succeeds). -/
theorem keepalive_decision (cfg : PathServerCfg) (peeks : List PeekResult)
    (h1 : Header) (dec : Option Request) (i2 : List CycleInput)
    (ccfg : CodeServerCfg) (h2 : Header) (body rsp : List Nat)
    (ch : CodeHandler) (peek : PeekResult)
    (hpeek : waitNextPath peeks = WaitOutcome.proceed)
    (hnp : handleServe cfg.getHandler dec ≠ HandleResult.panicked)
    (hch : ccfg.getHandler h2.code = some ch)
    (hret : ch h2.code body = CodeHandlerOutcome.ret rsp) :
    (cfg.keepAlive = false →
      ∃ w, serveRun cfg
          ({ peeks := peeks, rd := ReadResult.ok h1 dec,
             wr := WriteResult.ok } :: i2)
        = [CycleStep.close "ErrNoKeepAlive" (some w)]) ∧
    (cfg.keepAlive = true →
      ∃ w, serveRun cfg
          ({ peeks := peeks, rd := ReadResult.ok h1 dec,
             wr := WriteResult.ok } :: i2)
        = CycleStep.again (some w) :: serveRun cfg i2) ∧
    (ccfg.keepAlive = false →
      codeServeCycle ccfg (CodeReadResult.ok h2 body) CodeWriteResult.ok peek
        = CodeCycleStep.close
            (some (CodeWrite.successFrame (codeResponseSuccess h2 rsp).1 rsp)))
      ∧
    (ccfg.keepAlive = true → waitNextCode ccfg.idleTimeout peek = true →
      codeServeCycle ccfg (CodeReadResult.ok h2 body) CodeWriteResult.ok peek
        = CodeCycleStep.again
            (some (CodeWrite.successFrame (codeResponseSuccess h2 rsp).1 rsp)))
      := by
  have hcode : codeHandleServe ccfg.getHandler h2 body
      = CodeHandleResult.handled rsp := by
    simp [codeHandleServe, hch, hret]
  refine ⟨?_, ?_, ?_, ?_⟩
  · intro hka
    cases hh : handleServe cfg.getHandler dec with
    | panicked => exact absurd hh hnp
    | status st =>
      exact ⟨WriteAction.statusFrame st,
        by simp [serveRun, serveCycle, serveLoopBody, hpeek, hh, hka]⟩
    | success env =>
      exact ⟨WriteAction.successFrame h1 env,
        by simp [serveRun, serveCycle, serveLoopBody, hpeek, hh, hka]⟩
  · intro hka
    cases hh : handleServe cfg.getHandler dec with
    | panicked => exact absurd hh hnp
    | status st =>
      exact ⟨WriteAction.statusFrame st,
        by simp [serveRun, serveCycle, serveLoopBody, hpeek, hh, hka]⟩
    | success env =>
      exact ⟨WriteAction.successFrame h1 env,
        by simp [serveRun, serveCycle, serveLoopBody, hpeek, hh, hka]⟩
  · intro hka
    simp [codeServeCycle, codeServeLoopBody, hcode, hka, codeResponseSuccess]
  · intro hka hwn
    simp [codeServeCycle, codeServeLoopBody, hcode, hka, hwn,
      codeResponseSuccess]

/-- Witness for keepalive_decision: with keep-alive disabled the
path-addressed run over two pending valid requests serves exactly one pair
and closes; with keep-alive enabled the code-addressed cycle continues
after its success write. -/
theorem keepalive_decision_witness :
    (∃ w, serveRun pathCfgNoKA
        [{ peeks := [PeekResult.ok],
           rd := ReadResult.ok hdrEx (some { path := "/echo", req := [1] }),
           wr := WriteResult.ok },
         { peeks := [PeekResult.ok],
           rd := ReadResult.ok hdrEx (some { path := "/echo", req := [1] }),
           wr := WriteResult.ok }]
      = [CycleStep.close "ErrNoKeepAlive" (some w)]) ∧
    codeServeCycle codeCfgKA (CodeReadResult.ok hdr7 [2]) CodeWriteResult.ok
        PeekResult.ok
      = CodeCycleStep.again
          (some (CodeWrite.successFrame (codeResponseSuccess hdr7 [2]).1 [2]))
      := by
  have h := keepalive_decision pathCfgNoKA [PeekResult.ok] hdrEx
    (some { path := "/echo", req := [1] })
    [{ peeks := [PeekResult.ok],
       rd := ReadResult.ok hdrEx (some { path := "/echo", req := [1] }),
       wr := WriteResult.ok }]
    codeCfgKA hdr7 [2] [2] codeEchoHandler PeekResult.ok rfl (by decide)
    rfl rfl
  exact ⟨h.1 rfl, h.2.2.2 rfl rfl⟩

/-- C7 (amended): in the code-addressed convention a request whose header
code has no registered handler is answered by the responseError frame
carrying the header-level CodeInvalidAction code with the message bytes as
a short body and no envelope; afterwards the loop continues exactly when
the subsequent idle-wait peek succeeds — the keep-alive policy is not
consulted on this path. -/
theorem invalid_action_response_and_continue (ccfg : CodeServerCfg)
    (h : Header) (body : List Nat) (peek : PeekResult)
    (hmiss : ccfg.getHandler h.code = none) :
    (responseError CodeInvalidAction "invalid action").1.code
      = CodeInvalidAction ∧
    (responseError CodeInvalidAction "invalid action").2
      = strBytes "invalid action" ∧
    (waitNextCode ccfg.idleTimeout peek = true →
      codeServeCycle ccfg (CodeReadResult.ok h body) CodeWriteResult.ok peek
        = CodeCycleStep.again (some (CodeWrite.errorFrame
            (responseError CodeInvalidAction "invalid action").1
            (responseError CodeInvalidAction "invalid action").2))) ∧
    (waitNextCode ccfg.idleTimeout peek = false →
      codeServeCycle ccfg (CodeReadResult.ok h body) CodeWriteResult.ok peek
        = CodeCycleStep.close (some (CodeWrite.errorFrame
            (responseError CodeInvalidAction "invalid action").1
            (responseError CodeInvalidAction "invalid action").2))) := by
  have hcode : codeHandleServe ccfg.getHandler h body
      = CodeHandleResult.noHandler := by
    simp [codeHandleServe, hmiss]
  refine ⟨rfl, rfl, ?_, ?_⟩
  · intro hwn
    simp [codeServeCycle, codeServeLoopBody, hcode, hwn]
  · intro hwn
    simp [codeServeCycle, codeServeLoopBody, hcode, hwn]

/-- Witness for invalid_action_response_and_continue at the empty
registry. -/
theorem invalid_action_response_and_continue_witness :
    (responseError CodeInvalidAction "invalid action").1.code
      = CodeInvalidAction ∧
    (responseError CodeInvalidAction "invalid action").2
      = strBytes "invalid action" ∧
    (waitNextCode codeCfgNoHandler.idleTimeout PeekResult.ok = true →
      codeServeCycle codeCfgNoHandler (CodeReadResult.ok hdr7 [])
          CodeWriteResult.ok PeekResult.ok
        = CodeCycleStep.again (some (CodeWrite.errorFrame
            (responseError CodeInvalidAction "invalid action").1
            (responseError CodeInvalidAction "invalid action").2))) ∧
    (waitNextCode codeCfgNoHandler.idleTimeout PeekResult.ok = false →
      codeServeCycle codeCfgNoHandler (CodeReadResult.ok hdr7 [])
          CodeWriteResult.ok PeekResult.ok
        = CodeCycleStep.close (some (CodeWrite.errorFrame
            (responseError CodeInvalidAction "invalid action").1
            (responseError CodeInvalidAction "invalid action").2))) :=
  invalid_action_response_and_continue codeCfgNoHandler hdr7 [] PeekResult.ok
    rfl

/-- C7 counterexample: with keep-alive disabled, a concrete request for an
unregistered code is answered with the CodeInvalidAction error frame and
the loop nevertheless continues (the idle-wait peek succeeded) — refuting
the claim that the loop continues only if keep-alive is still in
effect. -/
theorem invalid_action_continues_without_keepalive_cx :
    codeCfgNoHandler.keepAlive = false ∧
    codeServeCycle codeCfgNoHandler (CodeReadResult.ok hdr7 [])
        CodeWriteResult.ok PeekResult.ok
      = CodeCycleStep.again (some (CodeWrite.errorFrame
          (responseError CodeInvalidAction "invalid action").1
          (responseError CodeInvalidAction "invalid action").2)) := by decide

/-- C8 (amended): in both conventions the success response frame carries
header code 0 and passes the full response body to the frame write, and
the header length field holds the body length reduced modulo 2^16 — equal
to the byte length of the body whenever that length is at most 65535. -/
theorem success_header_small_body (hdr : Header) (rspBytes : List Nat)
    (hlen : rspBytes.length ≤ 65535) :
    (responseSuccess hdr rspBytes).1.code = 0 ∧
    (codeResponseSuccess hdr rspBytes).1.code = 0 ∧
    (responseSuccess hdr rspBytes).1.length = rspBytes.length ∧
    (codeResponseSuccess hdr rspBytes).1.length = rspBytes.length ∧
    (responseSuccess hdr rspBytes).2 = rspBytes ∧
    (codeResponseSuccess hdr rspBytes).2 = rspBytes := by
  have hm : rspBytes.length % 65536 = rspBytes.length :=
    Nat.mod_eq_of_lt (by omega)
  exact ⟨rfl, rfl, hm, hm, rfl, rfl⟩

/-- Witness for success_header_small_body at a three-byte body. -/
theorem success_header_small_body_witness :
    (responseSuccess hdrEx [1, 2, 3]).1.code = 0 ∧
    (codeResponseSuccess hdrEx [1, 2, 3]).1.code = 0 ∧
    (responseSuccess hdrEx [1, 2, 3]).1.length = [1, 2, 3].length ∧
    (codeResponseSuccess hdrEx [1, 2, 3]).1.length = [1, 2, 3].length ∧
    (responseSuccess hdrEx [1, 2, 3]).2 = [1, 2, 3] ∧
    (codeResponseSuccess hdrEx [1, 2, 3]).2 = [1, 2, 3] :=
  success_header_small_body hdrEx [1, 2, 3] (by decide)

/-- C8 counterexample: a successfully dispatched response body of 65536
bytes is framed with header length 0 — not the byte length of the body
that is written — refuting the claim for bodies beyond 65535 bytes. -/
theorem success_header_length_mismatch_cx :
    (responseSuccess hdrEx bigBody).1.code = 0 ∧
    (responseSuccess hdrEx bigBody).2 = bigBody ∧
    (responseSuccess hdrEx bigBody).1.length = 0 ∧
    bigBody.length = 65536 ∧
    (responseSuccess hdrEx bigBody).1.length ≠ bigBody.length := by
  have hlen : bigBody.length = 65536 := by
    unfold bigBody
    simp only [List.length_replicate]
  refine ⟨rfl, rfl, ?_, hlen, ?_⟩
  · show uint16 bigBody.length = 0
    rw [hlen]
    decide
  · show uint16 bigBody.length ≠ bigBody.length
    rw [hlen]
    decide

/-- C10 (confirmed): responseSuccess sets the header length field to the
body length reduced modulo 2^16 while passing the full body to the frame
write, and likewise responseStatus for its status-message body; for bodies
beyond 65535 bytes the header length therefore differs from the length of
the body actually written. -/
theorem response_length_truncation (hdr : Header) (rspBytes : List Nat)
    (st : Status)
    (hbig : rspBytes.length > 65535) (hbigs : st.msg.length > 65535) :
    (responseSuccess hdr rspBytes).1.length = rspBytes.length % 65536 ∧
    (responseSuccess hdr rspBytes).2 = rspBytes ∧
    (responseSuccess hdr rspBytes).1.length ≠ rspBytes.length ∧
    (responseStatus st).1.length = st.msg.length % 65536 ∧
    (responseStatus st).2 = st.msg ∧
    (responseStatus st).1.length ≠ st.msg.length := by
  refine ⟨rfl, rfl, ?_, rfl, rfl, ?_⟩
  · show uint16 rspBytes.length ≠ rspBytes.length
    unfold uint16
    have := Nat.mod_lt rspBytes.length (show 0 < 65536 by omega)
    omega
  · show uint16 st.msg.length ≠ st.msg.length
    unfold uint16
    have := Nat.mod_lt st.msg.length (show 0 < 65536 by omega)
    omega

/-- Witness for response_length_truncation at the 65536-byte body and the
65536-byte status message. -/
theorem response_length_truncation_witness :
    (responseSuccess hdrEx bigBody).1.length = bigBody.length % 65536 ∧
    (responseSuccess hdrEx bigBody).2 = bigBody ∧
    (responseSuccess hdrEx bigBody).1.length ≠ bigBody.length ∧
    (responseStatus bigStatus).1.length = bigStatus.msg.length % 65536 ∧
    (responseStatus bigStatus).2 = bigStatus.msg ∧
    (responseStatus bigStatus).1.length ≠ bigStatus.msg.length :=
  response_length_truncation hdrEx bigBody bigStatus
    (by unfold bigBody; simp only [List.length_replicate]; decide)
    (by show bigBody.length > 65535
        unfold bigBody
        simp only [List.length_replicate]
        decide)

end Vsock
